import Mathlib

/-!
Verification development for the ragcli RAG engine core.

The Python sources are embedded shallowly:
* `src/ragcli/core/document_processor.py` (`chunk_text`) as a fuel-indexed
  recursive function over an abstract token list;
* `src/ragcli/utils/helpers.py` (`retry_with_backoff`) as a structural
  recursion over the attempt list `range(max_retries)`;
* `src/ragcli/database/vector_ops.py` (`search_similar`, `insert_document`,
  `insert_chunk`) over explicit database states;
* `src/ragcli/core/similarity_search.py` (`search_chunks`) and
  `src/ragcli/core/rag_engine.py` (`upload_document`, `ask_query`) as pure
  functions of an environment record carrying the outcomes of the external
  collaborators (embedding service, vector store, generation service).

Machine floats in the sources carry exact config/timing values in the
scenarios of interest; they are modelled by `ℚ`.
-/

namespace Ragcli

/-- Python errors as raised by the modelled code: a bare exception message,
a wrapping re-raise such as `raise Exception(f"Embedding generation failed: {e}")`
(`src/ragcli/core/embedding.py`), or a `KeyError` from a missing dict key. -/
inductive PyErr where
  | raw : String → PyErr
  | wrapped : String → PyErr → PyErr
  | keyError : String → PyErr
deriving DecidableEq, Repr

/-! ## Document chunking (`src/ragcli/core/document_processor.py`, `chunk_text`)

The tokenizer `enc` (tiktoken, an external collaborator) is abstracted: a
token type `α`, a decode function back to chunk text of type `σ`, and the
Python `len` on `σ`.  `chunk_text` slices the token list with Python slice
semantics, so slicing is modelled with Python's index normalisation. -/

/-- Normalise a Python slice index `i` for a sequence of length `n`:
negative indices count from the end and everything is clamped to `[0, n]`. -/
def pyIndex (n : ℕ) (i : ℤ) : ℕ :=
  if i < 0 then (max (i + n) 0).toNat else min i.toNat n

/-- Python slice `l[a:b]`. -/
def pySlice {α : Type} (l : List α) (a b : ℤ) : List α :=
  (l.take (pyIndex l.length b)).drop (pyIndex l.length a)

/-- One element of the list returned by `chunk_text`:
`{'text': ..., 'token_count': ..., 'char_count': ...}`. -/
structure ChunkRec (σ : Type) where
  text : σ
  token_count : ℕ
  char_count : ℕ
deriving DecidableEq, Repr

/-- Build one chunk record from its token window, as the loop body of
`chunk_text` does: `text = enc.decode(chunk_tokens)`,
`token_count = len(chunk_tokens)`, `char_count = len(chunk_text)`. -/
def mkChunkRec {α σ : Type} (decode : List α → σ) (lenOf : σ → ℕ)
    (chunkTokens : List α) : ChunkRec σ :=
  { text := decode chunkTokens
    token_count := chunkTokens.length
    char_count := lenOf (decode chunkTokens) }

/-- The `while start < total_tokens` loop of `chunk_text`, with `fuel`
bounding the number of iterations (`none` = the fuel ran out, i.e. the loop
did not terminate within `fuel` iterations).  Each iteration takes the window
`text_tokens[start:end]` with `end = min(start + chunk_size, total_tokens)`,
appends its record, breaks when `end >= total_tokens`, and otherwise advances
`start += chunk_size - overlap_tokens`.  The dead `# Safety` block in the
source (lines 104-113) only executes `pass`, so it is not modelled. -/
def chunkLoop {α σ : Type} (decode : List α → σ) (lenOf : σ → ℕ)
    (chunkSize overlapTokens : ℤ) (tokens : List α) :
    ℕ → ℤ → Option (List (ChunkRec σ))
  | 0, _ => none
  | fuel + 1, start =>
    if start < (tokens.length : ℤ) then
      let stop := min (start + chunkSize) (tokens.length : ℤ)
      let rec0 := mkChunkRec decode lenOf (pySlice tokens start stop)
      if stop ≥ (tokens.length : ℤ) then
        some [rec0]
      else
        match chunkLoop decode lenOf chunkSize overlapTokens tokens fuel
            (start + (chunkSize - overlapTokens)) with
        | none => none
        | some rest => some (rec0 :: rest)
    else
      some []

/-- `overlap_tokens = int(chunk_size * config['documents']['chunk_overlap_percentage'] / 100)`:
for the non-negative integer inputs of interest `int(...)` is the floor of
the exact quotient, i.e. `ℤ` euclidean division by 100. -/
def overlapTokensOf (chunkSize overlapPercentage : ℤ) : ℤ :=
  chunkSize * overlapPercentage / 100

/-- `chunk_text(text, config)`: empty token list returns `[]` at once,
otherwise the sliding-window loop runs from `start = 0`. -/
def chunk_text {α σ : Type} (decode : List α → σ) (lenOf : σ → ℕ)
    (chunkSize overlapPercentage : ℤ) (tokens : List α) (fuel : ℕ) :
    Option (List (ChunkRec σ)) :=
  let overlapTokens := overlapTokensOf chunkSize overlapPercentage
  if tokens.length = 0 then some []
  else chunkLoop decode lenOf chunkSize overlapTokens tokens fuel 0

/-- Identity "tokenizer" over natural-number tokens: decoding returns the
token window itself, which makes the token windows of each chunk
directly observable in the `text` field. -/
def idDecode : List ℕ → List ℕ := fun l => l

/-! ## Retry with backoff (`src/ragcli/utils/helpers.py`, `retry_with_backoff`)

The wrapped operation is modelled as a function from the attempt index to
its outcome; the random jitter `random.uniform(0, 1)` is an environment
function of the attempt index.  The model returns the final outcome
(`none` only when `max_retries = 0`, where the Python function falls off
the loop and returns `None`), the number of invocations made, and the list
of sleeps performed between attempts. -/

/-- The `for attempt in range(max_retries)` loop: return the first success;
on failure at the last attempt re-raise the caught exception `e` itself;
otherwise sleep `min(base_delay * 2 ** attempt + random.uniform(0, 1), max_delay)`
and continue. -/
def retryLoop {E A : Type} (f : ℕ → Except E A) (maxRetries : ℕ)
    (baseDelay maxDelay : ℚ) (jitter : ℕ → ℚ) :
    ℕ → List ℚ → List ℕ → Option (Except E A) × ℕ × List ℚ
  | calls, sleeps, [] => (none, calls, sleeps)
  | calls, sleeps, attempt :: rest =>
    match f attempt with
    | .ok a => (some (.ok a), calls + 1, sleeps)
    | .error e =>
      if attempt = maxRetries - 1 then (some (.error e), calls + 1, sleeps)
      else
        retryLoop f maxRetries baseDelay maxDelay jitter (calls + 1)
          (sleeps ++ [min (baseDelay * 2 ^ attempt + jitter attempt) maxDelay]) rest

/-- `retry_with_backoff(func, max_retries, base_delay, max_delay)`. -/
def retry_with_backoff {E A : Type} (f : ℕ → Except E A) (maxRetries : ℕ)
    (baseDelay maxDelay : ℚ) (jitter : ℕ → ℚ) :
    Option (Except E A) × ℕ × List ℚ :=
  retryLoop f maxRetries baseDelay maxDelay jitter 0 [] (List.range maxRetries)

/-! ## Streaming generation (`src/ragcli/core/embedding.py`, `generate_response`)

With `stream=True` the inner `_api_call` iterates the response lines,
concatenating every `choices[0].delta` content token into one string, and
returns that string; the outer function then wraps the retried result in a
generator that yields it exactly once.  A stream line is modelled as
`Option String`: `none` for an empty line or a line without a
`choices/delta` entry, `some tok` for a line contributing the token `tok`
(`delta.get("content", "")`, possibly empty). -/

/-- The line loop of `_api_call` under `stream=True`:
`content = ""; for line ...: content += token`. -/
def collectStream (lines : List (Option String)) : String :=
  lines.foldl (fun acc l => match l with | some tok => acc ++ tok | none => acc) ""

/-- `generate_response(messages, model, config, stream=True)`: retry
`_api_call` (which returns the fully collected content string), then return
the generator `generate_tokens()` that yields that string once — modelled as
the singleton fragment list.  A failure after the retries is re-raised as
`Exception(f"Response generation failed: {e}")`. -/
def generate_response_stream (attempts : ℕ → Except PyErr (List (Option String)))
    (baseDelay maxDelay : ℚ) (jitter : ℕ → ℚ) :
    Option (Except PyErr (List String)) :=
  match (retry_with_backoff (fun i => (attempts i).map collectStream) 3
      baseDelay maxDelay jitter).1 with
  | none => none
  | some (.ok content) => some (.ok [content])
  | some (.error e) => some (.error (.wrapped "Response generation failed" e))

/-! ## Similarity search (`src/ragcli/database/vector_ops.py`, `search_similar`,
and `src/ragcli/core/similarity_search.py`, `search_chunks`)

The external store's reply to
`ORDER BY similarity_score ASC FETCH FIRST :v_top_k ROWS ONLY` (where the
`similarity_score` alias is the cosine `VECTOR_DISTANCE`) is modelled as a
row list, assumed distance-ascending and of length at most `top_k` in the
theorems about it. -/

/-- One row fetched from `CHUNKS`: `chunk_id, document_id, chunk_text,
chunk_number` plus the cosine distance computed by the store. -/
structure SearchRow where
  chunk_id : String
  document_id : String
  text : String
  chunk_number : ℕ
  distance : ℚ
deriving DecidableEq, Repr

/-- One element of the result list built by `search_similar`. -/
structure SearchResult where
  chunk_id : String
  document_id : String
  chunk_number : ℕ
  text : String
  similarity_score : ℚ
deriving DecidableEq, Repr

/-- `search_similar(conn, query_embedding, top_k, min_similarity, document_ids)`:
issue the store query with the bind variable `:v_top_k` (the store `conn` is
modelled as the function from the bound `top_k` to the fetched rows), then
run the row loop: `score = 1 - row[4]`; keep the row iff
`score >= min_similarity`; `chunk_text_val = str(row[2]) if row[2] else ""`. -/
def search_similar (store : ℤ → List SearchRow) (top_k : ℤ)
    (min_similarity : ℚ) : List SearchResult :=
  (store top_k).filterMap fun row =>
    let score := 1 - row.distance
    if min_similarity ≤ score then
      some { chunk_id := row.chunk_id
             document_id := row.document_id
             chunk_number := row.chunk_number
             text := if row.text = "" then "" else row.text
             similarity_score := score }
    else none

/-- `'avg_similarity': sum(r['similarity_score'] for r in results) / len(results) if results else 0`
in the metrics dict of `search_chunks`. -/
def avgSimilarity (results : List SearchResult) : ℚ :=
  if results = [] then 0
  else (results.map (·.similarity_score)).sum / (results.length : ℚ)

/-- The metrics dict returned by `search_chunks`. -/
structure SearchMetrics where
  embedding_time_ms : ℚ
  search_time_ms : ℚ
  total_time_ms : ℚ
  num_results : ℕ
  avg_similarity : ℚ
deriving DecidableEq, Repr

/-- The dict returned by `search_chunks`: exactly the keys `results` and
`metrics` — deliberately no `query_embedding` field, because the source
returns `{'results': results, 'metrics': metrics}` and nothing else. -/
structure SearchChunksReturn where
  results : List SearchResult
  metrics : SearchMetrics
deriving DecidableEq, Repr

/-- `search_chunks(query, top_k, min_similarity, document_ids, config)`:
embed the query via `generate_embedding` (whose failure is re-raised as
`Exception(f"Embedding generation failed: {e}")`), run `search_similar`
over the store reply, and assemble the metrics dict.  The three timings are
environment inputs; `embedOutcome` is the raw outcome of the embedding
endpoint after its retries, `rows` the store reply. -/
def search_chunks (embedOutcome : Except PyErr (List ℚ)) (store : ℤ → List SearchRow)
    (embTimeMs searchTimeMs totalTimeMs : ℚ) (top_k : ℤ) (min_similarity : ℚ) :
    Except PyErr SearchChunksReturn :=
  match embedOutcome with
  | .error e => .error (.wrapped "Embedding generation failed" e)
  | .ok _ =>
    let results := search_similar store top_k min_similarity
    .ok { results := results
          metrics := { embedding_time_ms := embTimeMs
                       search_time_ms := searchTimeMs
                       total_time_ms := totalTimeMs
                       num_results := results.length
                       avg_similarity := avgSimilarity results } }

/-! ## The ask pipeline (`src/ragcli/core/rag_engine.py`, `ask_query`)

`ask_query` defaults its optional arguments with Python `or`, searches,
assembles the context, generates, and then attempts to log the query before
building its return dict.  The argument tuple of the `log_query` call reads
`search_result['query_embedding']`, but the dict returned by `search_chunks`
has only the keys `results` and `metrics` (`SearchChunksReturn`), so the
logging step raises `KeyError('query_embedding')` inside the `try` block;
the `finally` clause only closes the connection, so the error propagates. -/

/-- Python `x or default` for an optional int argument: `None` and `0` are
falsy, every other int is truthy (`top_k = top_k or config['rag']['top_k']`). -/
def pyOrInt (x : Option ℤ) (d : ℤ) : ℤ :=
  match x with
  | none => d
  | some v => if v = 0 then d else v

/-- Python `x or default` for an optional float argument: `None` and `0.0`
are falsy (`min_similarity = min_similarity or config['rag']['min_similarity_score']`). -/
def pyOrRat (x : Option ℚ) (d : ℚ) : ℚ :=
  match x with
  | none => d
  | some v => if v = 0 then d else v

/-- The `rag` section of the configuration. -/
structure RagConfig where
  top_k : ℤ
  min_similarity_score : ℚ
deriving DecidableEq, Repr

/-- An audit row written by `log_query`: the `QUERIES` insert or one
`QUERY_RESULTS` insert. -/
inductive AuditWrite where
  | queryRow : String → ℤ → ℚ → String → AuditWrite
  | resultRow : String → ℚ → ℕ → AuditWrite
deriving DecidableEq, Repr

/-- `log_query(conn, query_text, ..., results, response_text, ...)`: one
`QUERIES` row, then one `QUERY_RESULTS` row per element of `results[:top_k]`
with `rank = results.index(result) + 1`. -/
def log_query (query_text : String) (top_k : ℤ) (similarity_threshold : ℚ)
    (results : List SearchResult) (response_text : String) : List AuditWrite :=
  AuditWrite.queryRow query_text top_k similarity_threshold response_text ::
    (results.take top_k.toNat).map fun r =>
      AuditWrite.resultRow r.chunk_id r.similarity_score
        (results.indexOf r + 1)

/-- The collaborator outcomes and timings an `ask_query` run observes. -/
structure AskEnv where
  /-- raw outcome of the query-embedding endpoint after its retries -/
  embed : Except PyErr (List ℚ)
  /-- the store: bound `top_k` to fetched rows (distance-ascending, limited) -/
  store : ℤ → List SearchRow
  /-- raw outcome of the generation endpoint after its retries -/
  gen : Except PyErr String
  embTimeMs : ℚ
  searchTimeMs : ℚ
  /-- `total_time_ms` measured inside `search_chunks` (embed + search span) -/
  searchTotalMs : ℚ

/-- The success value `ask_query` would return (`response`, `results`, and
the metrics dict modelled separately by `ask_metrics_dict`). -/
structure QueryResultOut where
  response : String
  results : List SearchResult
deriving DecidableEq, Repr

/-- `ask_query(query, document_ids, top_k, min_similarity, config, stream)`:
default the optional arguments with `or`, run `search_chunks`, assemble the
context, call `generate_response` (failure re-raised as
`Exception(f"Response generation failed: {e}")`), then reach the logging
step, whose argument `search_result['query_embedding']` raises
`KeyError('query_embedding')` — so the success return below the `try` block
is unreachable.  Returns the outcome paired with the audit rows written. -/
def ask_query (env : AskEnv) (query : String) (topK : Option ℤ)
    (minSim : Option ℚ) (cfg : RagConfig) :
    Except PyErr QueryResultOut × List AuditWrite :=
  let top_k := pyOrInt topK cfg.top_k
  let min_similarity := pyOrRat minSim cfg.min_similarity_score
  match search_chunks env.embed env.store env.embTimeMs env.searchTimeMs
      env.searchTotalMs top_k min_similarity with
  | .error e => (.error e, [])
  | .ok sr =>
    let context := String.intercalate "\n\n"
      (sr.results.map fun r => "From " ++ r.document_id ++ ": " ++ r.text)
    let _messages : List (String × String) :=
      [("system", "You are a helpful assistant. Use the following context to answer the user\x27s question accurately. If the context doesn\x27t contain relevant information, say so."),
       ("user", "Context:\n" ++ context ++ "\n\nQuestion: " ++ query)]
    match env.gen with
    | .error e => (.error (.wrapped "Response generation failed" e), [])
    | .ok _response =>
        (.error (.keyError "query_embedding"), [])

/-! ## The metrics dict built by `ask_query` (lines 256-268)

The return dict of `ask_query` is

```
{'response': ..., 'results': ...,
 'metrics': {'search_time_ms': ..., 'generation_time_ms': ...,
             'total_time_ms': total_time * 1000, 'prompt_tokens': ...,
             'completion_tokens': ..., 'total_tokens': ...,
             **search_metrics}}
```

`**search_metrics` splices the dict built by `search_chunks` last, so its
keys overwrite the keys already present.  The dict is modelled as an
association list with Python insertion/update semantics. -/

/-- Python `d[k] = v` on an insertion-ordered dict: update in place when the
key exists, append otherwise. -/
def pyDictSet (d : List (String × ℚ)) (k : String) (v : ℚ) :
    List (String × ℚ) :=
  if d.any (fun p => p.1 = k) then
    d.map fun p => if p.1 = k then (k, v) else p
  else d ++ [(k, v)]

/-- Python `d[k]` lookup. -/
def pyDictGet (d : List (String × ℚ)) (k : String) : Option ℚ :=
  (d.find? (fun p => p.1 = k)).map (·.2)

/-- The entries of the `search_chunks` metrics dict in their insertion
order in `src/ragcli/core/similarity_search.py` lines 38-44. -/
def searchMetricsEntries (sm : SearchMetrics) : List (String × ℚ) :=
  [("embedding_time_ms", sm.embedding_time_ms),
   ("search_time_ms", sm.search_time_ms),
   ("total_time_ms", sm.total_time_ms),
   ("num_results", (sm.num_results : ℚ)),
   ("avg_similarity", sm.avg_similarity)]

/-- The `metrics` dict of the `ask_query` return value: the explicit entries
first (`totalTimeMs` is `(time.perf_counter() - start_time) * 1000` for the
whole ask), then the `**search_metrics` splice applied as updates. -/
def ask_metrics_dict (sm : SearchMetrics) (genTimeMs totalTimeMs : ℚ)
    (promptTokens completionTokens : ℕ) : List (String × ℚ) :=
  let base : List (String × ℚ) :=
    [("search_time_ms", sm.search_time_ms),
     ("generation_time_ms", genTimeMs),
     ("total_time_ms", totalTimeMs),
     ("prompt_tokens", (promptTokens : ℚ)),
     ("completion_tokens", (completionTokens : ℚ)),
     ("total_tokens", ((promptTokens + completionTokens : ℕ) : ℚ))]
  (searchMetricsEntries sm).foldl (fun d kv => pyDictSet d kv.1 kv.2) base

/-! ## The ingest pipeline (`src/ragcli/core/rag_engine.py`, `upload_document`,
with `src/ragcli/database/vector_ops.py`, `insert_document` / `insert_chunk`)

`upload_document` inserts the `DOCUMENTS` row first — with the full
`chunk_count` and `total_tokens`, and with no `status` column in the INSERT,
so the row takes the schema default `status VARCHAR2(20) DEFAULT 'READY'`
(`src/ragcli/database/schemas.py` line 21) — and only then runs the
per-chunk embed-and-insert loop, each `insert_chunk` committing on its own.
No exception handler updates the document on a failure partway. -/

/-- One chunk dict handed from `chunk_text` to the upload loop. -/
structure ChunkInput where
  text : String
  token_count : ℕ
  char_count : ℕ
deriving DecidableEq, Repr

/-- A `DOCUMENTS` row as `insert_document` leaves it. -/
structure DocRow where
  doc_id : ℕ
  filename : String
  chunk_count : ℕ
  total_tokens : ℕ
  /-- not in the INSERT column list: always the schema default `READY` -/
  status : String
deriving DecidableEq, Repr

/-- A `CHUNKS` row as `insert_chunk` leaves it. -/
structure ChunkRow where
  doc_id : ℕ
  chunk_number : ℕ
  text : String
  token_count : ℕ
deriving DecidableEq, Repr

/-- The persisted state the ingest pipeline touches. -/
structure Db where
  docs : List DocRow
  chunks : List ChunkRow
deriving DecidableEq, Repr

/-- `insert_document(conn, filename, ..., chunk_count, total_tokens, ...)`:
the INSERT names no `status` column, so the new row carries the
`DEFAULT 'READY'` of the schema.  The generated uuid is modelled by the
caller-supplied `docId`. -/
def insert_document (db : Db) (docId : ℕ) (filename : String)
    (chunk_count total_tokens : ℕ) : Db :=
  { db with
    docs := db.docs ++ [{ doc_id := docId, filename := filename,
                          chunk_count := chunk_count,
                          total_tokens := total_tokens,
                          status := "READY" }] }

/-- `insert_chunk(conn, doc_id, chunk_number, chunk_text, token_count, ...)`,
committing this one row. -/
def insert_chunk (db : Db) (docId chunk_number : ℕ) (text : String)
    (token_count : ℕ) : Db :=
  { db with
    chunks := db.chunks ++ [{ doc_id := docId, chunk_number := chunk_number,
                              text := text, token_count := token_count }] }

/-- The `for i, chunk_data in enumerate(chunks)` loop of `upload_document`:
embed chunk `i` (`generate_embedding` re-raises a failure as
`Exception(f"Embedding generation failed: {e}")`, which propagates out of
`upload_document` with the state as committed so far), then
`insert_chunk(conn, doc_id, i+1, ...)`. -/
def uploadChunksLoop (embed : ℕ → Except PyErr (List ℚ)) (docId : ℕ) :
    List (ℕ × ChunkInput) → Db → Option PyErr × Db
  | [], db => (none, db)
  | (i, c) :: rest, db =>
    match embed i with
    | .error e => (some (.wrapped "Embedding generation failed" e), db)
    | .ok _ =>
      uploadChunksLoop embed docId rest
        (insert_chunk db docId (i + 1) c.text c.token_count)

/-- `upload_document(file_path, config)` from the point where the text is
chunked: insert the `DOCUMENTS` row with the aggregate counts of all chunks,
then run the per-chunk loop.  Returns the raised error (if any) and the
final persisted state. -/
def upload_document (db : Db) (docId : ℕ) (filename : String)
    (chunks : List ChunkInput) (embed : ℕ → Except PyErr (List ℚ)) :
    Option PyErr × Db :=
  let db1 := insert_document db docId filename chunks.length
    (chunks.map (·.token_count)).sum
  uploadChunksLoop embed docId chunks.enum db1

/-! ## Theorems -/

/-- C3: with `chunk_size = 20` and `overlap_percentage = 100` the computed
`overlap_tokens` is 20, so the window step `chunk_size - overlap_tokens` is 0
and, on a 21-token text, `start` stays at 0 forever: for every iteration
bound `fuel` the loop has not terminated.  The claimed fail-fast
configuration error does not exist in `chunk_text` — the `# Safety` block
that was meant to force forward progress only executes `pass` — so the
function loops indefinitely instead of raising. -/
theorem chunk_text_c3_no_fail_fast :
    ∀ fuel, chunk_text idDecode List.length 20 100 (List.range 21) fuel = none := by
  have h : ∀ fuel, chunkLoop idDecode List.length 20 20 (List.range 21) fuel 0 = none := by
    intro fuel
    induction fuel with
    | zero => rfl
    | succ n ih =>
      simp only [chunkLoop, List.length_range]
      norm_num
      rw [ih]
  intro fuel
  simp only [chunk_text, overlapTokensOf, List.length_range]
  norm_num
  exact h fuel

/-- C4: on a 60-token text with `chunk_size = 20` and
`overlap_percentage = 10`, `overlap_tokens = floor(20 * 10 / 100) = 2` and
`chunk_text` returns exactly 4 chunks whose token windows are
`[0,20)`, `[18,38)`, `[36,56)`, `[54,60)`, the last with only 6 < 20 tokens;
and in general, at every non-final iteration, the next chunk window starts
exactly `chunk_size - overlap_tokens` tokens after the previous one (the
recursion continues from `start + (chunk_size - overlap_tokens)`). -/
theorem chunk_text_c4_windows :
    overlapTokensOf 20 10 = 2 ∧
    (chunk_text idDecode List.length 20 10 (List.range 60) 10).map
        (fun l => l.map ChunkRec.text) =
      some [List.range' 0 20, List.range' 18 20, List.range' 36 20,
            List.range' 54 6] ∧
    ((chunk_text idDecode List.length 20 10 (List.range 60) 10).map
        (fun l => l.map ChunkRec.token_count) = some [20, 20, 20, 6] ∧
      6 < 20) ∧
    (∀ {α σ : Type} (decode : List α → σ) (lenOf : σ → ℕ)
        (cs ov start : ℤ) (tokens : List α) (fuel : ℕ),
      start < (tokens.length : ℤ) →
      min (start + cs) (tokens.length : ℤ) < (tokens.length : ℤ) →
      chunkLoop decode lenOf cs ov tokens (fuel + 1) start =
        match chunkLoop decode lenOf cs ov tokens fuel (start + (cs - ov)) with
        | none => none
        | some rest =>
            some (mkChunkRec decode lenOf
              (pySlice tokens start (min (start + cs) (tokens.length : ℤ))) :: rest)) := by
  refine ⟨by decide, by decide, ⟨by decide, by decide⟩, ?_⟩
  intro α σ decode lenOf cs ov start tokens fuel h1 h2
  simp only [chunkLoop]
  rw [if_pos h1, if_neg (not_le.mpr h2)]

/-- Witness for C4: the general step equation instantiated at the second
window of the 60-token example (`start = 18`, step `20 - 2 = 18`). -/
theorem chunk_text_c4_windows_witness :
    (18 : ℤ) < ((List.range 60).length : ℤ) ∧
    min ((18 : ℤ) + 20) (((List.range 60).length : ℤ)) < ((List.range 60).length : ℤ) ∧
    chunkLoop idDecode List.length 20 2 (List.range 60) (3 + 1) 18 =
      match chunkLoop idDecode List.length 20 2 (List.range 60) 3 (18 + (20 - 2)) with
      | none => none
      | some rest =>
          some (mkChunkRec idDecode List.length
            (pySlice (List.range 60) 18
              (min ((18 : ℤ) + 20) ((List.range 60).length : ℤ))) :: rest) :=
  ⟨by decide, by decide,
    chunk_text_c4_windows.2.2.2 idDecode List.length 20 2 18 (List.range 60) 3
      (by decide) (by decide)⟩

/-- C5 counterexample: an operation that fails on all 3 attempts with the
underlying error `"timeout"`.  `retry_with_backoff` makes exactly 3
invocations and then re-raises that underlying error itself (`raise e` in
the source): the raised value is literally `"timeout"`, not a typed
ServiceError wrapping it — no ServiceError type exists anywhere in the
codebase.  The sleeps are `min(1 * 2 ** 0 + 0, 10) = 1` and
`min(1 * 2 ** 1 + 0, 10) = 2`. -/
theorem retry_with_backoff_c5_counterexample :
    retry_with_backoff (fun _ => (Except.error "timeout" : Except String Unit))
        3 1 10 (fun _ => 0) =
      (some (.error "timeout"), 3, [1, 2]) := by
  have hr : List.range 3 = [0, 1, 2] := by decide
  simp [retry_with_backoff, hr, retryLoop]
  norm_num

/-- C5 amended: with `max_retries = 3`, failure on attempts 1 and 2 and
success on attempt 3 returns the success value after exactly 3 invocations;
failure on all 3 attempts re-raises the last underlying exception itself
(not a ServiceError wrapper, which the code does not have) after exactly 3
invocations, never making a 4th; and the sleep between attempts `i` and
`i + 1` is `min(base_delay * 2 ** attempt + jitter, max_delay)` for
`attempt = i - 1` zero-based. -/
theorem retry_with_backoff_c5_amended {E A : Type} (f : ℕ → Except E A)
    (e0 e1 : E) (baseDelay maxDelay : ℚ) (jitter : ℕ → ℚ)
    (h0 : f 0 = .error e0) (h1 : f 1 = .error e1) :
    (∀ a, f 2 = .ok a →
      retry_with_backoff f 3 baseDelay maxDelay jitter =
        (some (.ok a), 3,
         [min (baseDelay * 2 ^ 0 + jitter 0) maxDelay,
          min (baseDelay * 2 ^ 1 + jitter 1) maxDelay])) ∧
    (∀ e2, f 2 = .error e2 →
      retry_with_backoff f 3 baseDelay maxDelay jitter =
        (some (.error e2), 3,
         [min (baseDelay * 2 ^ 0 + jitter 0) maxDelay,
          min (baseDelay * 2 ^ 1 + jitter 1) maxDelay])) := by
  have hr : List.range 3 = [0, 1, 2] := by decide
  constructor
  · intro a h2
    simp [retry_with_backoff, hr, retryLoop, h0, h1, h2]
  · intro e2 h2
    simp [retry_with_backoff, hr, retryLoop, h0, h1, h2]

/-- Witness for C5 amended: a concrete operation failing twice then
succeeding, and one failing three times. -/
theorem retry_with_backoff_c5_amended_witness :
    (fun i => if i < 2 then (Except.error "boom" : Except String ℕ) else .ok 42) 0 =
        .error "boom" ∧
    (fun i => if i < 2 then (Except.error "boom" : Except String ℕ) else .ok 42) 1 =
        .error "boom" ∧
    retry_with_backoff
        (fun i => if i < 2 then (Except.error "boom" : Except String ℕ) else .ok 42)
        3 1 10 (fun _ => 0) =
      (some (.ok 42), 3, [min (1 * 2 ^ 0 + 0) 10, min (1 * 2 ^ 1 + 0) 10]) :=
  ⟨rfl, rfl,
    (retry_with_backoff_c5_amended
        (fun i => if i < 2 then (Except.error "boom" : Except String ℕ) else .ok 42)
        "boom" "boom" 1 10 (fun _ => 0) rfl rfl).1 42 rfl⟩

/-- C6: over any store reply ordered by distance ascending and holding at
most `top_k` rows, `search_similar` returns only results with
`similarity = 1 - distance` at least `min_similarity`, in monotonically
non-increasing similarity order, at most `top_k` of them; and when no
fetched row reaches the threshold the result list is empty and the
`avg_similarity` metric of `search_chunks` is 0. -/
theorem search_similar_c6 (store : ℤ → List SearchRow) (top_k : ℤ) (minSim : ℚ)
    (hsort : (store top_k).Pairwise (fun a b => a.distance ≤ b.distance))
    (hlen : (store top_k).length ≤ top_k.toNat) :
    (∀ r ∈ search_similar store top_k minSim,
        minSim ≤ r.similarity_score ∧
        ∃ row ∈ store top_k, r.similarity_score = 1 - row.distance) ∧
    (search_similar store top_k minSim).Pairwise
      (fun a b => b.similarity_score ≤ a.similarity_score) ∧
    (search_similar store top_k minSim).length ≤ top_k.toNat ∧
    ((∀ row ∈ store top_k, 1 - row.distance < minSim) →
      search_similar store top_k minSim = [] ∧
      avgSimilarity (search_similar store top_k minSim) = 0) := by
  refine ⟨?_, ?_, ?_, ?_⟩
  · intro r hr
    simp only [search_similar, List.mem_filterMap] at hr
    obtain ⟨row, hrow, hf⟩ := hr
    by_cases hth : minSim ≤ 1 - row.distance
    · rw [if_pos hth] at hf
      cases hf
      exact ⟨hth, row, hrow, rfl⟩
    · rw [if_neg hth] at hf
      cases hf
  · refine List.Pairwise.filterMap _ ?_ hsort
    intro a a' hle b hb b' hb'
    by_cases ha : minSim ≤ 1 - a.distance
    all_goals by_cases ha' : minSim ≤ 1 - a'.distance
    all_goals simp only [if_pos, if_neg, ha, ha', ite_true, ite_false,
      Option.mem_def, Option.some_inj, reduceCtorEq] at hb hb'
    subst hb
    subst hb'
    simp only []
    linarith
  · exact le_trans (List.length_filterMap_le _ _) hlen
  · intro hall
    have hnil : search_similar store top_k minSim = [] := by
      simp only [search_similar, List.filterMap_eq_nil_iff]
      intro row hrow
      rw [if_neg (not_le.mpr (hall row hrow))]
    exact ⟨hnil, by rw [hnil]; rfl⟩

/-- The concrete store reply of the C6 witness: one row at cosine distance
`1/5`, i.e. similarity `0.8`. -/
def c6Store : ℤ → List SearchRow :=
  fun _ => [{ chunk_id := "c1", document_id := "d1", text := "hello",
              chunk_number := 1, distance := 1/5 }]

/-- Witness for C6: a single fetched row with similarity `0.8` against
`min_similarity = 0.9` and `top_k = 5` — the result list is empty and the
average-similarity metric is 0. -/
theorem search_similar_c6_witness :
    (c6Store 5).Pairwise (fun a b => a.distance ≤ b.distance) ∧
    (c6Store 5).length ≤ (5 : ℤ).toNat ∧
    ((∀ r ∈ search_similar c6Store 5 (9/10),
        (9/10 : ℚ) ≤ r.similarity_score ∧
        ∃ row ∈ c6Store 5, r.similarity_score = 1 - row.distance) ∧
      (search_similar c6Store 5 (9/10)).Pairwise
        (fun a b => b.similarity_score ≤ a.similarity_score) ∧
      (search_similar c6Store 5 (9/10)).length ≤ (5 : ℤ).toNat ∧
      ((∀ row ∈ c6Store 5, 1 - row.distance < 9/10) →
        search_similar c6Store 5 (9/10) = [] ∧
        avgSimilarity (search_similar c6Store 5 (9/10)) = 0)) :=
  ⟨by simp [c6Store], by simp [c6Store],
    search_similar_c6 c6Store 5 (9/10) (by simp [c6Store]) (by simp [c6Store])⟩

/-- C7: when the query embedding fails, `ask_query` aborts with the typed
wrapper `Exception("Embedding generation failed: ...")` raised inside
`generate_embedding`, and when generation fails it aborts with
`Exception("Response generation failed: ...")`; in both cases the abort
happens before the logging step, so no audit row — neither a `QUERIES` row
nor a `QUERY_RESULTS` row — is written. -/
theorem ask_query_c7_abort_before_audit :
    (∀ (env : AskEnv) (query : String) (topK : Option ℤ) (minSim : Option ℚ)
        (cfg : RagConfig) (e : PyErr), env.embed = .error e →
      ask_query env query topK minSim cfg =
        (.error (.wrapped "Embedding generation failed" e), [])) ∧
    (∀ (env : AskEnv) (query : String) (topK : Option ℤ) (minSim : Option ℚ)
        (cfg : RagConfig) (emb : List ℚ) (e : PyErr),
        env.embed = .ok emb → env.gen = .error e →
      ask_query env query topK minSim cfg =
        (.error (.wrapped "Response generation failed" e), [])) := by
  constructor
  · intro env query topK minSim cfg e he
    simp [ask_query, search_chunks, he]
  · intro env query topK minSim cfg emb e he hg
    simp [ask_query, search_chunks, he, hg]

/-- The concrete environment for the C7 witness: the embedding endpoint is
down, the rest would succeed. -/
def c7Env : AskEnv :=
  { embed := .error (.raw "connection refused")
    store := fun _ => []
    gen := .ok "unused"
    embTimeMs := 1, searchTimeMs := 1, searchTotalMs := 2 }

/-- Witness for C7: with the embedding endpoint down, `ask_query` returns
the typed wrapper error and writes nothing. -/
theorem ask_query_c7_abort_before_audit_witness :
    c7Env.embed = .error (.raw "connection refused") ∧
    ask_query c7Env "what is up" none none ⟨5, 1/2⟩ =
      (.error (.wrapped "Embedding generation failed" (.raw "connection refused")), []) :=
  ⟨rfl, ask_query_c7_abort_before_audit.1 c7Env "what is up" none none ⟨5, 1/2⟩
    (.raw "connection refused") rfl⟩

/-- The concrete environment of the C8 counterexample: embedding, search
and generation all succeed. -/
def c8Env : AskEnv :=
  { embed := .ok [1]
    store := fun _ => [{ chunk_id := "c1", document_id := "d1", text := "hello",
                         chunk_number := 1, distance := 1/10 }]
    gen := .ok "the answer"
    embTimeMs := 1, searchTimeMs := 1, searchTotalMs := 2 }

/-- C8 counterexample: retrieval and generation succeed, yet `ask_query`
does not return the computed QueryResult — the audit step raises
`KeyError('query_embedding')` (the dict `search_chunks` returns has no such
key) and the `try/finally` around `log_query` has no `except` clause, so the
error propagates to the caller instead of being downgraded to a warning. -/
theorem ask_query_c8_counterexample :
    c8Env.embed = .ok [1] ∧ c8Env.gen = .ok "the answer" ∧
    ask_query c8Env "q" none none ⟨5, 1/2⟩ =
      (.error (.keyError "query_embedding"), []) :=
  ⟨rfl, rfl, rfl⟩

/-- C8 amended: when retrieval and generation have succeeded, the audit
step always fails — `ask_query` evaluates `search_result['query_embedding']`
but `search_chunks` returns only the keys `results` and `metrics` — and
the failure propagates out of `ask_query` (the `finally` clause only closes
the connection), so the already-computed QueryResult is never returned and
no audit row is written. -/
theorem ask_query_c8_audit_failure_propagates :
    (∀ (env : AskEnv) (query : String) (topK : Option ℤ) (minSim : Option ℚ)
        (cfg : RagConfig) (emb : List ℚ) (resp : String),
        env.embed = .ok emb → env.gen = .ok resp →
      ask_query env query topK minSim cfg =
        (.error (.keyError "query_embedding"), [])) ∧
    (∀ (env : AskEnv) (query : String) (topK : Option ℤ) (minSim : Option ℚ)
        (cfg : RagConfig), (ask_query env query topK minSim cfg).2 = []) := by
  constructor
  · intro env query topK minSim cfg emb resp he hg
    simp [ask_query, search_chunks, he, hg]
  · intro env query topK minSim cfg
    rcases he : env.embed with e | emb
    · simp [ask_query, search_chunks, he]
    · rcases hg : env.gen with e | resp
      · simp [ask_query, search_chunks, he, hg]
      · simp [ask_query, search_chunks, he, hg]

/-- Witness for C8 amended: the all-success environment again; the returned
value is the propagated `KeyError`, not a QueryResult. -/
theorem ask_query_c8_audit_failure_propagates_witness :
    c8Env.embed = .ok [1] ∧ c8Env.gen = .ok "the answer" ∧
    ask_query c8Env "why" (some 3) (some (7/10)) ⟨5, 1/2⟩ =
      (.error (.keyError "query_embedding"), []) :=
  ⟨rfl, rfl, ask_query_c8_audit_failure_propagates.1 c8Env "why" (some 3)
    (some (7/10)) ⟨5, 1/2⟩ [1] "the answer" rfl rfl⟩

/-- C9: `ask_query` defaults its optional arguments with Python `or`
(`top_k = top_k or config['rag']['top_k']`, likewise `min_similarity`), and
`0` / `0.0` are falsy, so an explicit `top_k = 0` or `min_similarity = 0.0`
is replaced by the configured default — the whole pipeline behaves exactly
as if the argument had been omitted. -/
theorem ask_query_c9_zero_args_use_defaults :
    (∀ d : ℤ, pyOrInt (some 0) d = d ∧ pyOrInt none d = d) ∧
    (∀ q : ℚ, pyOrRat (some 0) q = q ∧ pyOrRat none q = q) ∧
    (∀ (env : AskEnv) (query : String) (cfg : RagConfig),
      ask_query env query (some 0) (some 0) cfg =
        ask_query env query none none cfg) := by
  refine ⟨fun d => ⟨by simp [pyOrInt], rfl⟩, fun q => ⟨by simp [pyOrRat], rfl⟩, ?_⟩
  intro env query cfg
  simp [ask_query, pyOrInt, pyOrRat]

/-- C10: `generate_response` with `stream=True` first lets `_api_call`
collect every partial-content token of the stream into one string (so
nothing is delivered until the call has fully completed), then wraps the
retried result in a generator yielding exactly once: every successful
outcome is a single-fragment sequence whose only element is the full
concatenation, and joining the fragments (as `ask_query` does with
`"".join(...)`) gives back exactly that string. -/
theorem generate_response_stream_c10 :
    (∀ (attempts : ℕ → Except PyErr (List (Option String)))
        (baseDelay maxDelay : ℚ) (jitter : ℕ → ℚ) (frags : List String),
      generate_response_stream attempts baseDelay maxDelay jitter =
          some (.ok frags) →
      ∃ c, frags = [c] ∧ String.join frags = c) ∧
    (∀ (attempts : ℕ → Except PyErr (List (Option String)))
        (baseDelay maxDelay : ℚ) (jitter : ℕ → ℚ) (lines : List (Option String)),
      attempts 0 = .ok lines →
      generate_response_stream attempts baseDelay maxDelay jitter =
          some (.ok [collectStream lines]) ∧
      String.join [collectStream lines] = collectStream lines) := by
  have hjoin : ∀ c : String, String.join [c] = c := by
    intro c
    simp [String.join]
  constructor
  · intro attempts baseDelay maxDelay jitter frags h
    unfold generate_response_stream at h
    rcases hres : (retry_with_backoff
        (fun i => (attempts i).map collectStream) 3 baseDelay maxDelay jitter).1 with
      _ | r
    · rw [hres] at h
      cases h
    · rw [hres] at h
      rcases r with e | content
      · cases h
      · simp only [Option.some_inj, Except.ok.injEq] at h
        exact ⟨content, h.symm, by rw [← h]; exact hjoin content⟩
  · intro attempts baseDelay maxDelay jitter lines h0
    have hr : List.range 3 = [0, 1, 2] := by decide
    refine ⟨?_, hjoin _⟩
    simp [generate_response_stream, retry_with_backoff, hr, retryLoop, h0,
      Except.map]

/-- Witness for C10: a stream of two content lines separated by a line
without a delta entry; the single yielded fragment is their concatenation. -/
theorem generate_response_stream_c10_witness :
    (fun _ : ℕ =>
        (Except.ok [some "Hel", none, some "lo"] : Except PyErr (List (Option String)))) 0 =
      .ok [some "Hel", none, some "lo"] ∧
    generate_response_stream
        (fun _ => .ok [some "Hel", none, some "lo"]) 1 10 (fun _ => 0) =
      some (.ok [collectStream [some "Hel", none, some "lo"]]) ∧
    String.join [collectStream [some "Hel", none, some "lo"]] =
      collectStream [some "Hel", none, some "lo"] :=
  ⟨rfl, (generate_response_stream_c10.2
      (fun _ => .ok [some "Hel", none, some "lo"]) 1 10 (fun _ => 0)
      [some "Hel", none, some "lo"] rfl).1,
    (generate_response_stream_c10.2
      (fun _ => .ok [some "Hel", none, some "lo"]) 1 10 (fun _ => 0)
      [some "Hel", none, some "lo"] rfl).2⟩

/-- C2: the `**search_metrics` splice at the end of the metrics dict literal
overwrites the `total_time_ms` entry that `ask_query` just computed for the
whole ask with the `total_time_ms` measured inside `search_chunks` (the
embed + search span only, which ends before generation starts).  First
conjunct: for every input, the looked-up `total_time_ms` is the
search-phase total, the ask-level argument being discarded.  Second
conjunct: at the concrete timings embedding 1 ms, search 1 ms, search-phase
total 2.2 ms, generation 10 ms, ask total 12.5 ms, the returned metrics
give `total_time_ms = 2.2 < 1 + 1 + 10`, violating the claimed
inequality. -/
theorem ask_metrics_dict_c2_total_overwritten :
    (∀ (sm : SearchMetrics) (genTimeMs totalTimeMs : ℚ)
        (promptTokens completionTokens : ℕ),
      pyDictGet (ask_metrics_dict sm genTimeMs totalTimeMs
          promptTokens completionTokens) "total_time_ms" =
        some sm.total_time_ms) ∧
    (pyDictGet (ask_metrics_dict ⟨1, 1, 11/5, 1, 4/5⟩ 10 (25/2) 12 3)
        "total_time_ms" = some (11/5) ∧
     pyDictGet (ask_metrics_dict ⟨1, 1, 11/5, 1, 4/5⟩ 10 (25/2) 12 3)
        "embedding_time_ms" = some 1 ∧
     pyDictGet (ask_metrics_dict ⟨1, 1, 11/5, 1, 4/5⟩ 10 (25/2) 12 3)
        "search_time_ms" = some 1 ∧
     pyDictGet (ask_metrics_dict ⟨1, 1, 11/5, 1, 4/5⟩ 10 (25/2) 12 3)
        "generation_time_ms" = some 10 ∧
     (11/5 : ℚ) < 1 + 1 + 10) := by
  constructor
  · intro sm genTimeMs totalTimeMs promptTokens completionTokens
    rfl
  · refine ⟨rfl, rfl, rfl, rfl, by norm_num⟩

/-- The chunk list of the C1 scenario: three 5-token chunks. -/
def c1Chunks : List ChunkInput :=
  [{ text := "alpha", token_count := 5, char_count := 5 },
   { text := "beta", token_count := 5, char_count := 4 },
   { text := "gamma", token_count := 5, char_count := 5 }]

/-- The embedding outcomes of the C1 scenario: chunk 1 embeds fine, chunk 2
hits a dead endpoint. -/
def c1Embed : ℕ → Except PyErr (List ℚ) :=
  fun i => if i = 0 then .ok [1] else .error (.raw "connection refused")

/-- C1: `upload_document` inserts the `DOCUMENTS` row before the per-chunk
loop, recording `chunk_count = 3` and taking the schema default
`status = 'READY'` (the INSERT names no status column), and no handler
updates it afterwards.  When the embedding of the second chunk raises, the
error propagates and the persisted state keeps the document queryable-READY
with `chunk_count = 3` while only 1 chunk row exists — there is no ERROR
transition anywhere in the pipeline. -/
theorem upload_document_c1_ready_with_missing_chunks :
    (upload_document ⟨[], []⟩ 7 "doc.txt" c1Chunks c1Embed).1 =
      some (.wrapped "Embedding generation failed" (.raw "connection refused")) ∧
    (upload_document ⟨[], []⟩ 7 "doc.txt" c1Chunks c1Embed).2.docs =
      [{ doc_id := 7, filename := "doc.txt", chunk_count := 3,
         total_tokens := 15, status := "READY" }] ∧
    (upload_document ⟨[], []⟩ 7 "doc.txt" c1Chunks c1Embed).2.chunks.length = 1 ∧
    1 < 3 ∧ "READY" ≠ "ERROR" := by
  refine ⟨rfl, rfl, rfl, by norm_num, by decide⟩

end Ragcli
